import Mathlib

/-!
Verification of the ReFit backend's daily-objective / streak / step-ingestion
engine, as implemented in `refit_app` (Django).

Shallow embedding conventions:
- Calendar dates (`DateField`) and timestamps (`DateTimeField`) are integers:
  a date is a day number, a timestamp is in seconds; 24 hours = 86400 seconds.
- Python's float arithmetic on the streak multiplier (`0.1 * racha`,
  `min(2.0, ...)`, `// 200`) is modelled exactly over `ℚ`; `int(x // y)` for
  integral `x` is `Int.floor (x / y)` (Python's `//` floors toward −∞).
- The database is restricted to the rows of the single authenticated user:
  the `PASOS` table is a map from date to the stored step count, the
  `USUARIOS_OBJETIVOS_DIARIOS` table a list of assignment rows, the
  `OBJETIVOS_DIARIOS` catalog a list of definitions, and the user row a
  record of the fields the engine touches.
- The step endpoint's `patch` method starts with
  `nuevos_pasos = request.data.get("pasos")` (`step_views.py` line 54).
  With a JSON-array body, DRF's `request.data` is a plain Python `list`,
  which has no `.get`, so every batched request raises `AttributeError`
  there — before `transaction.atomic()` opens and before any database
  access — and surfaces as a server error with no state change. The
  `isinstance(request.data, list)` check on line 55 is therefore never
  reached with a list, and the batched loop of lines 58–101 is dead code
  in every execution; the embedding models the list case as that crash.
  With a JSON-object body `.get` succeeds, `lista_acciones` is `None`,
  and the single-number branch (lines 103–118) runs as written.
-/

namespace ReFit

/-- Calendar date (`DateField`), as a day number. -/
abbrev Date := Int

/-- Timestamp (`DateTimeField`), in seconds. -/
abbrev Time := Int

/-- The `DateTimeField` value produced by storing a bare `date` (midnight). -/
def dateMidnight (d : Date) : Time := 86400 * d

/-- The fields of the `User` row that the engine reads or writes
(`models.py` lines 72–86). -/
structure UserRow where
  pasos_totales : Int
  monedas_actuales : Int
  racha : Int
  racha_updated_at : Option Time
  last_sync : Option Time
deriving Repr, DecidableEq

/-- A catalog entry: `ObjetivoDiario` (`models.py` lines 263–284). -/
structure ObjetivoDiario where
  id : Int
  tipo : String
  requisito : String
  valor_requerido : Int
  premio : Int
  is_active : Bool
deriving Repr, DecidableEq

/-- An assignment row: `UsuarioObjetivoDiario` for the authenticated user
(`models.py` lines 287–320). -/
structure Asignacion where
  objetivoId : Int
  fecha_completado : Option Time
  fecha_canjeado : Option Time
  fecha_creacion : Date
deriving Repr, DecidableEq

/-- The `PASOS` table restricted to the authenticated user: the stored step
count per date, `none` when no row exists for that date. -/
abbrev PasosTable := Date → Option Int

/-- Write (or create) the `PASOS` row for date `d`. -/
def pasosUpd (t : PasosTable) (d : Date) (v : Int) : PasosTable :=
  fun x => if x = d then some v else t x

/-- The `Pasos.objects.select_for_update().get_or_create(..., defaults={"pasos": 0})`
call: ensures a row exists for `d`, creating it with 0 steps if absent. -/
def pasosGetOrCreate (t : PasosTable) (d : Date) : PasosTable :=
  match t d with
  | some _ => t
  | none => pasosUpd t d 0

/-- Full database state visible to the engine. -/
structure Db where
  pasos : PasosTable
  user : UserRow
  catalogo : List ObjetivoDiario
  asignaciones : List Asignacion

/-- The result of `calcular_multiplicador`: the returned multiplier, the
user object after the call (the stale branch zeroes the streak), and
whether `user.save()` ran inside the call. -/
structure MultResult where
  mult : ℚ
  user : UserRow
  saved : Bool
deriving Repr, DecidableEq

/-- Embedding of `calcular_multiplicador` (`task_views.py` lines 31–43):
if `racha_updated_at` is set and at least 24 hours old, reset the streak to
0, clear `racha_updated_at`, save the user and return 1.0; otherwise
return `min(2.0, 1.0 + 0.1 * racha)` without touching the user. -/
def calcular_multiplicador (now : Time) (u : UserRow) : MultResult :=
  match u.racha_updated_at with
  | some t =>
      if now - t ≥ 86400 then
        { mult := 1, user := { u with racha := 0, racha_updated_at := none }, saved := true }
      else
        { mult := min 2 (1 + (u.racha : ℚ) / 10), user := u, saved := false }
  | none => { mult := min 2 (1 + (u.racha : ℚ) / 10), user := u, saved := false }

/-- Python's `int((steps * multiplicador) // 200)` on an integral `steps`
and rational multiplier: floor division toward −∞. -/
def monedasDe (steps : Int) (m : ℚ) : Int := Int.floor ((steps : ℚ) * m / 200)

/-- The `steps` field of a batched entry as received from JSON: a Python
`int`, or any non-`int` value (`isinstance(steps, int)` fails). -/
inductive RawSteps where
  | intVal (n : Int)
  | noInt
deriving Repr, DecidableEq

/-- The `date` field of a batched entry: a string that `datetime.strptime`
parses to a calendar date, or one it rejects. -/
inductive RawDate where
  | valid (d : Date)
  | malformada
deriving Repr, DecidableEq

/-- One element of the batched PATCH payload:
`{"action": ..., "steps": ..., "date": ...}`. -/
structure Entrada where
  action : String
  steps : RawSteps
  date : RawDate
deriving Repr, DecidableEq

/-- The HTTP response of `StepUpdateView.patch`: success with the new
`last_sync`, the invalid-format HTTP 400 of line 121, or the uncaught
`AttributeError` of line 54 (`request.data.get` on a list), which DRF
surfaces as a server error. The loop's own 400 messages (lines 67, 70
and 83) are unreachable, because every list payload already crashed on
line 54. -/
inductive PatchResp where
  | ok (lastSync : Time)
  | badRequestFormato
  | serverErrorAttributeError
deriving Repr, DecidableEq

/-- The request body of `StepUpdateView.patch`: a JSON list of entries, or
a JSON object whose `"pasos"` field may be absent or not an `int`. -/
inductive ReqData where
  | lista (entries : List Entrada)
  | cuerpo (pasos : Option RawSteps)
deriving Repr, DecidableEq

/-- Embedding of `StepUpdateView.patch` (`step_views.py` lines 46–132).
A list body crashes on line 54: `request.data.get("pasos")` raises
`AttributeError` because a Python `list` has no `.get`, before
`transaction.atomic()` opens and before any database access, so the
batched loop of lines 58–101 never runs and no state changes. An object
body reaches line 55 with `lista_acciones = None` and takes the
single-number branch (lines 103–118) when `"pasos"` is a non-negative
`int`, else the invalid-format response of line 121. -/
def stepUpdatePatch (now : Time) (today : Date) (db : Db) (rd : ReqData) :
    Db × PatchResp :=
  match rd with
  | .lista _ => (db, .serverErrorAttributeError)
  | .cuerpo v =>
      match v with
      | some (.intVal n) =>
          if n ≥ 0 then
            -- lines 103–118: single-number branch, applied to today.
            let tabla0 := pasosGetOrCreate db.pasos today
            let cur := (tabla0 today).getD 0
            let tabla1 := pasosUpd tabla0 today (cur + n)
            let r := calcular_multiplicador now db.user
            let fin := { r.user with
              pasos_totales := r.user.pasos_totales + n,
              monedas_actuales := r.user.monedas_actuales + monedasDe n r.mult,
              last_sync := some now }
            ({ db with pasos := tabla1, user := fin }, .ok now)
          else (db, .badRequestFormato)
      | _ => (db, .badRequestFormato)

/-- Embedding of `evaluar_objetivo_cuantitativo` (`objetivos_service.py`
lines 31–46): for requirement `"pasos"`, true iff a `PASOS` row exists for
today with at least `valor_requerido` steps; any other requirement string
yields false. -/
def evaluar_objetivo_cuantitativo (pasos : PasosTable) (today : Date)
    (obj : ObjetivoDiario) : Bool :=
  if obj.requisito = "pasos" then
    match pasos today with
    | some p => p ≥ obj.valor_requerido
    | none => false
  else false

/-- Embedding of `evaluar_objetivo_cualitativo` (`objetivos_service.py`
lines 52–57): always false; qualitative completion is marked externally. -/
def evaluar_objetivo_cualitativo (_obj : ObjetivoDiario) : Bool := false

/-- Embedding of `puede_completar_objetivo` (`objetivos_service.py`
lines 11–26), dispatching on the definition's `tipo`; unknown kinds yield
false. -/
def puede_completar_objetivo (pasos : PasosTable) (today : Date)
    (obj : ObjetivoDiario) : Bool :=
  if obj.tipo = "cuantitativo" then evaluar_objetivo_cuantitativo pasos today obj
  else if obj.tipo = "cualitativo" then evaluar_objetivo_cualitativo obj
  else false

/-- Look up the catalog definition with primary key `oid`. -/
def catalogFind (cat : List ObjetivoDiario) (oid : Int) : Option ObjetivoDiario :=
  cat.find? (fun o => o.id = oid)

/-- Find the assignment row for `(user, oid, today)`. -/
def asigFind (l : List Asignacion) (oid : Int) (today : Date) : Option Asignacion :=
  l.find? (fun a => a.objetivoId = oid ∧ a.fecha_creacion = today)

/-- The `UsuarioObjetivoDiario.objects.get_or_create(...)` call of
`CheckDailyTaskSerializer.validate_tarea_id`: ensures an assignment row
exists for `(user, oid, today)`, creating it with null `fecha_completado`
and `fecha_canjeado` if absent. Returns the row and the updated table. -/
def asigGetOrCreate (l : List Asignacion) (oid : Int) (today : Date) :
    Asignacion × List Asignacion :=
  match asigFind l oid today with
  | some a => (a, l)
  | none =>
      let nueva : Asignacion :=
        { objetivoId := oid, fecha_completado := none,
          fecha_canjeado := none, fecha_creacion := today }
      (nueva, l ++ [nueva])

/-- Apply `f` to the assignment rows for `(user, oid, today)` (at most one
such row exists under the table's `unique_together` constraint). -/
def asigUpd (l : List Asignacion) (oid : Int) (today : Date)
    (f : Asignacion → Asignacion) : List Asignacion :=
  l.map (fun a => if a.objetivoId = oid ∧ a.fecha_creacion = today then f a else a)

/-- The HTTP response of `CheckDailyTaskView.post`. -/
inductive CheckResp where
  | ok
  | noAlcanzado
  | serializerInvalido
deriving Repr, DecidableEq

/-- Embedding of `CheckDailyTaskView.post` (`task_views.py` lines 163–200)
together with `CheckDailyTaskSerializer.validate_tarea_id`
(`serializers.py`): look up an active definition by id (get_or_create the
assignment for today; reject if already completed); reject when
`puede_completar_objetivo` fails; otherwise stamp `fecha_completado`, and
when every assignment of today is now completed, increment the streak and
set `racha_updated_at`. -/
def checkDailyTaskPost (now : Time) (today : Date) (db : Db) (tareaId : Int) :
    Db × CheckResp :=
  match (db.catalogo.find? (fun o => o.id = tareaId ∧ o.is_active)) with
  | none => (db, .serializerInvalido)
  | some obj =>
    let gc := asigGetOrCreate db.asignaciones obj.id today
    if gc.1.fecha_completado.isSome then
      ({ db with asignaciones := gc.2 }, .serializerInvalido)
    else
      let db1 : Db := { db with asignaciones := gc.2 }
      if ¬ puede_completar_objetivo db1.pasos today obj then
        (db1, .noAlcanzado)
      else
        let l2 := asigUpd db1.asignaciones obj.id today
          (fun a => { a with fecha_completado := some now })
        let completadas :=
          (l2.filter (fun a => a.fecha_creacion = today ∧ a.fecha_completado.isSome)).length
        let total := (l2.filter (fun a => a.fecha_creacion = today)).length
        if completadas = total then
          let u2 : UserRow :=
            { db1.user with racha := db1.user.racha + 1, racha_updated_at := some now }
          ({ db1 with asignaciones := l2, user := u2 }, .ok)
        else ({ db1 with asignaciones := l2 }, .ok)

/-- Whether an assignment row matches the queryset of
`marcar_objetivo_cualitativo_como_completado`: created today, not yet
completed, and its definition is qualitative with the given requirement
code. -/
def matchCualitativo (cat : List ObjetivoDiario) (today : Date) (codigo : String)
    (a : Asignacion) : Bool :=
  a.fecha_creacion = today && a.fecha_completado = none &&
    (match catalogFind cat a.objetivoId with
     | some o => o.tipo = "cualitativo" && o.requisito = codigo
     | none => false)

/-- Embedding of `marcar_objetivo_cualitativo_como_completado`
(`objetivos_service.py` lines 60–79): stamp `fecha_completado` (the source
assigns `date.today()`, stored as midnight of today) on every matching
assignment; when none matches, the loop body never runs and the state is
unchanged. The function touches no other state. -/
def marcar_objetivo_cualitativo_como_completado (today : Date) (db : Db)
    (codigo : String) : Db :=
  { db with asignaciones := db.asignaciones.map (fun a =>
      if matchCualitativo db.catalogo today codigo a then
        { a with fecha_completado := some (dateMidnight today) }
      else a) }

/-- A freshly bulk-created assignment row for definition `o`: both
lifecycle timestamps null, `fecha_creacion` stamped with today
(`auto_now_add`). -/
def asigNueva (today : Date) (o : ObjetivoDiario) : Asignacion :=
  { objetivoId := o.id, fecha_completado := none,
    fecha_canjeado := none, fecha_creacion := today }

/-- Embedding of `ObjetivosActivosUsuarioView.get` (`task_views.py`
lines 128–150): when the user has no assignment rows created today,
bulk-create one per catalog definition — the queryset is
`ObjetivoDiario.objects.all()`, with no `is_active` filter — then return
today's rows. -/
def objetivosActivosGet (today : Date) (db : Db) : Db × List Asignacion :=
  let existentes := db.asignaciones.filter (fun a => a.fecha_creacion = today)
  let db1 : Db :=
    if existentes.isEmpty then
      { db with asignaciones := db.asignaciones ++ db.catalogo.map (asigNueva today) }
    else db
  (db1, db1.asignaciones.filter (fun a => a.fecha_creacion = today))

/-- The outcome of `ExchangeDailyTaskView.post`. -/
inductive ExchangeResp where
  | serverErrorNameError
deriving Repr, DecidableEq

/-- Embedding of `ExchangeDailyTaskView.post` (`task_views.py`
lines 213–250). The first executed statement after constructing the
serializer is line 221, `if tarea.fecha_canjeado:`, but the local `tarea`
is only assigned later (line 229, inside `if serializer.is_valid():`), so
every request raises `NameError` before any validation or database write;
the uncaught exception surfaces as a server error and the transaction
context never commits a change. (Even were `tarea` bound, line 234 calls
`calcular_multiplicador(request.user.racha)` with an `int`, which would
raise `AttributeError` on `racha_updated_at`.) -/
def exchangeDailyTaskPost (db : Db) (_tareaId : Int) : Db × ExchangeResp :=
  (db, .serverErrorNameError)

/-- The validation outcome of `ExchangeDailyTaskSerializer.validate_tarea_id`
(`serializers.py` lines 710–732), embedded for reference: the guards the
redeem path would enforce if the view reached `serializer.is_valid()`. -/
inductive ExchangeValidacion where
  | ok (a : Asignacion)
  | objetivoNoEncontrado
  | tareaNoRegistrada
  | noCompletada
  | yaCanjeada
deriving Repr, DecidableEq

/-- Embedding of `ExchangeDailyTaskSerializer.validate_tarea_id`: the
definition must exist and be active, the assignment row for today must
exist, be completed, and not yet redeemed. -/
def exchangeValidateTareaId (today : Date) (db : Db) (tareaId : Int) :
    ExchangeValidacion :=
  match (db.catalogo.find? (fun o => o.id = tareaId ∧ o.is_active)) with
  | none => .objetivoNoEncontrado
  | some obj =>
    match asigFind db.asignaciones obj.id today with
    | none => .tareaNoRegistrada
    | some a =>
      if a.fecha_completado.isNone then .noCompletada
      else if a.fecha_canjeado.isSome then .yaCanjeada
      else .ok a

/-- One request against the engine, for stating state invariants. -/
inductive Op where
  | patchOp (now : Time) (rd : ReqData)
  | checkOp (now : Time) (tareaId : Int)
  | exchangeOp (tareaId : Int)
  | objetivosOp
  | marcarOp (codigo : String)
deriving Repr

/-- The database state after executing one request. -/
def applyOp (today : Date) (db : Db) : Op → Db
  | .patchOp now rd => (stepUpdatePatch now today db rd).1
  | .checkOp now tareaId => (checkDailyTaskPost now today db tareaId).1
  | .exchangeOp tareaId => (exchangeDailyTaskPost db tareaId).1
  | .objetivosOp => (objetivosActivosGet today db).1
  | .marcarOp codigo => marcar_objetivo_cualitativo_como_completado today db codigo

/-- Redemption presupposes completion, for one assignment row. -/
def canjeImplicaCompletado (a : Asignacion) : Prop :=
  a.fecha_canjeado ≠ none → a.fecha_completado ≠ none

/-- The redeemed-implies-completed invariant over assignment rows. -/
def InvRC (db : Db) : Prop :=
  ∀ a ∈ db.asignaciones, canjeImplicaCompletado a

/-! Concrete fixtures used to evaluate the embedded operations. -/

/-- A `PASOS` table with no rows. -/
def emptyPasos : PasosTable := fun _ => none

/-- A fresh user row, matching the model's field defaults. -/
def u0 : UserRow :=
  { pasos_totales := 0, monedas_actuales := 0, racha := 0,
    racha_updated_at := none, last_sync := none }

/-- A database with no rows at all. -/
def dbEmpty : Db :=
  { pasos := emptyPasos, user := u0, catalogo := [], asignaciones := [] }

/-- A database whose only `PASOS` row is 100 steps on day 0, for a user
with 1000 lifetime steps. -/
def dbReplace : Db :=
  { pasos := pasosUpd emptyPasos 0 100,
    user := { u0 with pasos_totales := 1000 },
    catalogo := [], asignaciones := [] }

/-- The batched entry `{"action": "replace", "steps": 50, "date": day 0}`. -/
def entradaReplace50 : Entrada :=
  { action := "replace", steps := .intVal 50, date := .valid 0 }

/-- A valid `add` entry for the historical day 5. -/
def entradaAdd100dia5 : Entrada :=
  { action := "add", steps := .intVal 100, date := .valid 5 }

/-- A user row with a streak of 5 but no `racha_updated_at` timestamp. -/
def uNull5 : UserRow := { u0 with racha := 5 }

/-- An active quantitative steps objective requiring 10000 steps. -/
def oPasos : ObjetivoDiario :=
  { id := 1, tipo := "cuantitativo", requisito := "pasos",
    valor_requerido := 10000, premio := 50, is_active := true }

/-- An inactive (soft-disabled) quantitative objective. -/
def oInactivo : ObjetivoDiario :=
  { id := 2, tipo := "cuantitativo", requisito := "pasos",
    valor_requerido := 100, premio := 10, is_active := false }

/-- An active qualitative objective triggered by the `"login"` event. -/
def oLogin : ObjetivoDiario :=
  { id := 3, tipo := "cualitativo", requisito := "login",
    valor_requerido := 0, premio := 5, is_active := true }

/-- An active quantitative objective with the unsupported requirement
string `"km"`. -/
def oKm : ObjetivoDiario :=
  { id := 4, tipo := "cuantitativo", requisito := "km",
    valor_requerido := 5, premio := 5, is_active := true }

/-- An assignment of `oPasos` for day 0, completed but not redeemed. -/
def asigCompletada : Asignacion :=
  { objetivoId := 1, fecha_completado := some 10,
    fecha_canjeado := none, fecha_creacion := 0 }

/-- A database where the user holds a completed, unredeemed assignment of
the active objective `oPasos` for day 0. -/
def dbRedeem : Db :=
  { pasos := emptyPasos, user := u0, catalogo := [oPasos],
    asignaciones := [asigCompletada] }

/-- A fresh assignment of the qualitative objective `oLogin` for day 0. -/
def asigLogin : Asignacion :=
  { objetivoId := 3, fecha_completado := none,
    fecha_canjeado := none, fecha_creacion := 0 }

/-- A database where the user's only assignment for day 0 is the pending
qualitative `oLogin` assignment. -/
def dbLogin : Db :=
  { pasos := emptyPasos, user := u0, catalogo := [oLogin],
    asignaciones := [asigLogin] }

/-- A database whose catalog holds only the inactive definition, with no
assignments yet. -/
def dbInactivo : Db :=
  { pasos := emptyPasos, user := u0, catalogo := [oInactivo], asignaciones := [] }

/-- A database whose catalog holds only the unsupported-requirement
definition `oKm`, with no assignments yet. -/
def dbKm : Db :=
  { pasos := emptyPasos, user := u0, catalogo := [oKm], asignaciones := [] }

end ReFit

namespace ReFit

/-- C1: a batched `replace` entry for the current day never stores the new
value and never adjusts `pasos_totales`, because every list payload
crashes on `step_views.py` line 54 — `request.data.get("pasos")` raises
`AttributeError` on a Python `list` — before the transaction opens.
Starting from 100 stored steps and 1000 total steps, replacing today's
record with 50 leaves the record at 100 and `pasos_totales` at 1000, with
a server error instead of the claimed stored value 50 and total 950. -/
theorem C1_replace_keeps_totalSteps :
    ((stepUpdatePatch 0 0 dbReplace (.lista [entradaReplace50])).1.pasos 0 = some 100) ∧
    ((stepUpdatePatch 0 0 dbReplace (.lista [entradaReplace50])).1.user.pasos_totales = 1000) ∧
    ((stepUpdatePatch 0 0 dbReplace (.lista [entradaReplace50])).2 = .serverErrorAttributeError) ∧
    ¬ ((stepUpdatePatch 0 0 dbReplace (.lista [entradaReplace50])).1.pasos 0 = some 50) ∧
    ¬ ((stepUpdatePatch 0 0 dbReplace
        (.lista [entradaReplace50])).1.user.pasos_totales = 1000 + (50 - 100)) := by
  refine ⟨?_, rfl, rfl, ?_, ?_⟩ <;>
    simp [stepUpdatePatch, dbReplace, pasosUpd, emptyPasos, u0]

/-- C2: every batched step update is rejected with no state change at all:
the request dies with `AttributeError` on `step_views.py` line 54 before
`transaction.atomic()` opens and before any database access, so in
particular a batch containing an invalid entry persists no `PASOS` row and
leaves `pasos_totales`, `monedas_actuales` and `last_sync` untouched —
even when earlier entries in the list were valid. The rejection is a
server error rather than the loop's validation responses, which are
unreachable. -/
theorem C2_batch_no_state_change (now : Time) (today : Date) (db : Db)
    (entries : List Entrada) :
    ((stepUpdatePatch now today db (.lista entries)).1 = db) ∧
    (∀ d, (stepUpdatePatch now today db (.lista entries)).1.pasos d = db.pasos d) ∧
    ((stepUpdatePatch now today db (.lista entries)).1.user = db.user) ∧
    ((stepUpdatePatch now today db (.lista entries)).2 = .serverErrorAttributeError) :=
  ⟨rfl, fun _ => rfl, rfl, rfl⟩

/-- C3: the claim says the multiplier equals exactly 1.0 whenever
`racha_updated_at` is null, but `calcular_multiplicador` only returns the
base value in the stale branch; with `racha_updated_at = None` it falls
through to `min(2.0, 1.0 + 0.1 * racha)`, so a user with streak 5 and a
null timestamp gets multiplier 1.5, not 1.0. -/
theorem C3_multiplicador_null_counterexample :
    uNull5.racha_updated_at = none ∧
    (calcular_multiplicador 0 uNull5).mult = 3 / 2 ∧ ¬ ((3 : ℚ) / 2 = 1) := by
  refine ⟨rfl, ?_, by norm_num⟩
  simp [calcular_multiplicador, uNull5, u0]
  norm_num

/-- C3 amended: the multiplier is 1.0 with the reset side effect exactly
when `racha_updated_at` is set and at least 24 hours old; when it is null
or fresh the result is `min(2.0, 1.0 + 0.1 * racha)` with no side effect
(which is 1.0 only when the streak is 0); for a non-negative streak the
multiplier always lies in [1.0, 2.0]. -/
theorem C3_multiplicador_amended (now : Time) (u : UserRow) (h : 0 ≤ u.racha) :
    (∀ t, u.racha_updated_at = some t → now - t ≥ 86400 →
      (calcular_multiplicador now u).mult = 1 ∧
      (calcular_multiplicador now u).user.racha = 0 ∧
      (calcular_multiplicador now u).user.racha_updated_at = none ∧
      (calcular_multiplicador now u).saved = true) ∧
    (u.racha_updated_at = none ∨ (∃ t, u.racha_updated_at = some t ∧ now - t < 86400) →
      (calcular_multiplicador now u).mult = min 2 (1 + (u.racha : ℚ) / 10) ∧
      (calcular_multiplicador now u).user = u ∧
      (calcular_multiplicador now u).saved = false ∧
      (u.racha = 0 → (calcular_multiplicador now u).mult = 1)) ∧
    1 ≤ (calcular_multiplicador now u).mult ∧
    (calcular_multiplicador now u).mult ≤ 2 := by
  have hq : (0 : ℚ) ≤ (u.racha : ℚ) := by exact_mod_cast h
  have hmin : (1 : ℚ) ≤ min 2 (1 + (u.racha : ℚ) / 10) := by
    refine le_min (by norm_num) ?_
    have hdiv : (0 : ℚ) ≤ (u.racha : ℚ) / 10 := by positivity
    linarith
  refine ⟨?_, ?_, ?_, ?_⟩
  · intro t ht hstale
    simp [calcular_multiplicador, ht, hstale]
  · rintro (hnone | ⟨t, ht, hfresh⟩)
    · refine ⟨by simp [calcular_multiplicador, hnone],
        by simp [calcular_multiplicador, hnone],
        by simp [calcular_multiplicador, hnone], ?_⟩
      intro h0
      simp [calcular_multiplicador, hnone, h0]
    · have hlt : ¬ (now - t ≥ 86400) := not_le.mpr hfresh
      refine ⟨by simp [calcular_multiplicador, ht, hlt],
        by simp [calcular_multiplicador, ht, hlt],
        by simp [calcular_multiplicador, ht, hlt], ?_⟩
      intro h0
      simp [calcular_multiplicador, ht, hlt, h0]
  · cases hcase : u.racha_updated_at with
    | none => simpa [calcular_multiplicador, hcase] using hmin
    | some t =>
      by_cases hstale : now - t ≥ 86400
      · simp [calcular_multiplicador, hcase, hstale]
      · simpa [calcular_multiplicador, hcase, hstale] using hmin
  · cases hcase : u.racha_updated_at with
    | none => simp [calcular_multiplicador, hcase, min_le_left]
    | some t =>
      by_cases hstale : now - t ≥ 86400
      · simp [calcular_multiplicador, hcase, hstale]
      · simp [calcular_multiplicador, hcase, hstale, min_le_left]

/-- Reading back the row just written. -/
theorem pasosUpd_self (t : PasosTable) (d : Date) (v : Int) : pasosUpd t d v d = some v := by
  simp [pasosUpd]

/-- After `get_or_create`, the row for `d` holds the prior value, or 0 when
the row was just created. -/
theorem pasosGetOrCreate_self (t : PasosTable) (d : Date) :
    pasosGetOrCreate t d d = some ((t d).getD 0) := by
  cases h : t d <;> simp [pasosGetOrCreate, pasosUpd, h]

/-- The `calcular_multiplicador` side effect never touches `pasos_totales`,
`monedas_actuales` or `last_sync`. -/
theorem calcular_multiplicador_user_fields (now : Time) (u : UserRow) :
    (calcular_multiplicador now u).user.pasos_totales = u.pasos_totales ∧
    (calcular_multiplicador now u).user.monedas_actuales = u.monedas_actuales ∧
    (calcular_multiplicador now u).user.last_sync = u.last_sync := by
  cases h : u.racha_updated_at with
  | none => simp [calcular_multiplicador, h]
  | some t =>
    by_cases hs : now - t ≥ 86400 <;> simp [calcular_multiplicador, h, hs]

/-- Witness for the amended C3 theorem at the fresh user `u0`. -/
theorem C3_multiplicador_amended_witness :
    0 ≤ u0.racha ∧
    1 ≤ (calcular_multiplicador 0 u0).mult ∧ (calcular_multiplicador 0 u0).mult ≤ 2 := by
  refine ⟨by norm_num [u0], ?_, ?_⟩
  · exact (C3_multiplicador_amended 0 u0 (by norm_num [u0])).2.2.1
  · exact (C3_multiplicador_amended 0 u0 (by norm_num [u0])).2.2.2

/-- C4: a batched `add` entry never increases the `PASOS` row nor
`pasos_totales`: every list payload crashes with `AttributeError` on
`step_views.py` line 54 before any database access, against the view's
own docstring, which promises that an array of action/steps/date objects
updates multiple dates. Adding 100 steps to day 5 from an empty table
leaves the table empty and the totals at 0, with a server error in place
of the claimed growth by 100. -/
theorem C4_add_batch_crashes :
    ((stepUpdatePatch 0 0 dbEmpty (.lista [entradaAdd100dia5])).1.pasos 5 = none) ∧
    ((stepUpdatePatch 0 0 dbEmpty (.lista [entradaAdd100dia5])).1.user.pasos_totales = 0) ∧
    ((stepUpdatePatch 0 0 dbEmpty (.lista [entradaAdd100dia5])).2 = .serverErrorAttributeError) ∧
    ¬ ((stepUpdatePatch 0 0 dbEmpty (.lista [entradaAdd100dia5])).1.pasos 5 = some 100) ∧
    ¬ ((stepUpdatePatch 0 0 dbEmpty
        (.lista [entradaAdd100dia5])).1.user.pasos_totales = 0 + 100) := by
  refine ⟨rfl, rfl, rfl, ?_, ?_⟩ <;>
    simp [stepUpdatePatch, dbEmpty, emptyPasos, u0]

/-- C5: every call to the redeem endpoint leaves the state untouched and
raises `NameError` — line 221 of `task_views.py` reads the local `tarea`
before it is ever assigned — so even a request for a completed, unredeemed
assignment of an active definition (one that passes every guard of
`ExchangeDailyTaskSerializer.validate_tarea_id`) gets a server error
instead of the claimed success, and the "not yet completed" /
"already redeemed" client errors are never produced either. -/
theorem C5_exchange_always_crashes :
    ((exchangeDailyTaskPost dbRedeem 1).1 = dbRedeem) ∧
    ((exchangeDailyTaskPost dbRedeem 1).2 = .serverErrorNameError) ∧
    (exchangeValidateTareaId 0 dbRedeem 1 = .ok asigCompletada) := by
  refine ⟨rfl, rfl, ?_⟩
  simp [exchangeValidateTareaId, dbRedeem, oPasos, asigCompletada, asigFind, catalogFind]

/-- C6: the qualitative `"login"` event marks the user's only pending
assignment of today completed, so all of today's assignments are then
completed; yet `marcar_objetivo_cualitativo_como_completado` applies no
streak side effect — `racha` stays 0 instead of incrementing to 1 and
`racha_updated_at` stays null — contradicting the claim that it applies
the same side effect as explicit completion. -/
theorem C6_marcar_sin_racha_counterexample :
    ((marcar_objetivo_cualitativo_como_completado 0 dbLogin "login").asignaciones
      = [{ asigLogin with fecha_completado := some 0 }]) ∧
    (((marcar_objetivo_cualitativo_como_completado 0 dbLogin "login").asignaciones.filter
        (fun a => a.fecha_creacion = 0 ∧ a.fecha_completado.isSome)).length
      = ((marcar_objetivo_cualitativo_como_completado 0 dbLogin "login").asignaciones.filter
        (fun a => a.fecha_creacion = 0)).length) ∧
    ((marcar_objetivo_cualitativo_como_completado 0 dbLogin "login").user = u0) ∧
    ¬ ((marcar_objetivo_cualitativo_como_completado 0 dbLogin "login").user.racha
      = dbLogin.user.racha + 1) := by
  refine ⟨?_, ?_, rfl, ?_⟩ <;>
    simp [marcar_objetivo_cualitativo_como_completado, matchCualitativo, catalogFind,
      dbLogin, asigLogin, oLogin, dateMidnight, u0]

/-- C6 amended: the implicit qualitative-completion operation stamps
`fecha_completado` on every assignment of today matching the event code
whose definition is qualitative, keeps every non-matching row as is, never
touches the user row (in particular no streak side effect), and is a
complete no-op when no assignment matches. -/
theorem C6_marcar_amended (today : Date) (db : Db) (codigo : String) :
    ((marcar_objetivo_cualitativo_como_completado today db codigo).user = db.user) ∧
    ((marcar_objetivo_cualitativo_como_completado today db codigo).pasos = db.pasos) ∧
    ((marcar_objetivo_cualitativo_como_completado today db codigo).catalogo = db.catalogo) ∧
    (∀ a ∈ db.asignaciones, matchCualitativo db.catalogo today codigo a = true →
      { a with fecha_completado := some (dateMidnight today) }
        ∈ (marcar_objetivo_cualitativo_como_completado today db codigo).asignaciones) ∧
    (∀ a ∈ db.asignaciones, matchCualitativo db.catalogo today codigo a = false →
      a ∈ (marcar_objetivo_cualitativo_como_completado today db codigo).asignaciones) ∧
    ((∀ a ∈ db.asignaciones, matchCualitativo db.catalogo today codigo a = false) →
      marcar_objetivo_cualitativo_como_completado today db codigo = db) := by
  refine ⟨rfl, rfl, rfl, ?_, ?_, ?_⟩
  · intro a ha hm
    have : ({ a with fecha_completado := some (dateMidnight today) } : Asignacion)
        = (fun a => if matchCualitativo db.catalogo today codigo a then
            { a with fecha_completado := some (dateMidnight today) } else a) a := by
      simp [hm]
    rw [this]
    exact List.mem_map_of_mem _ ha
  · intro a ha hm
    have : a = (fun a => if matchCualitativo db.catalogo today codigo a then
        { a with fecha_completado := some (dateMidnight today) } else a) a := by
      simp [hm]
    rw [this]
    exact List.mem_map_of_mem _ ha
  · intro hnone
    obtain ⟨p, u, c, l⟩ := db
    simp only [marcar_objetivo_cualitativo_como_completado]
    congr 1
    have : ∀ a ∈ l, (if matchCualitativo c today codigo a then
        { a with fecha_completado := some (dateMidnight today) } else a) = a := by
      intro a ha
      simp [hnone a ha]
    calc l.map _ = l.map id := List.map_congr_left this
    _ = l := List.map_id l

/-- Witness for the amended C6 theorem: the pending `oLogin` assignment of
`dbLogin` matches the `"login"` event and is marked completed. -/
theorem C6_marcar_amended_witness :
    { asigLogin with fecha_completado := some (dateMidnight 0) }
      ∈ (marcar_objetivo_cualitativo_como_completado 0 dbLogin "login").asignaciones :=
  (C6_marcar_amended 0 dbLogin "login").2.2.2.1 asigLogin (by simp [dbLogin])
    (by simp [matchCualitativo, catalogFind, dbLogin, asigLogin, oLogin])

/-- A freshly bulk-created row is stamped with today. -/
theorem asigNueva_fecha (today : Date) (o : ObjetivoDiario) :
    (asigNueva today o).fecha_creacion = today := rfl

/-- A filter by creation date keeps every freshly bulk-created row. -/
theorem filter_asigNueva (today : Date) (cat : List ObjetivoDiario) :
    (cat.map (asigNueva today)).filter (fun a => a.fecha_creacion = today)
      = cat.map (asigNueva today) := by
  refine List.filter_eq_self.mpr ?_
  intro a ha
  rcases List.mem_map.mp ha with ⟨o, _, rfl⟩
  simp [asigNueva]

/-- C7: the bulk-creation queryset is `ObjetivoDiario.objects.all()`
(`task_views.py` line 138), so a catalog whose only definition is the
soft-disabled `oInactivo` still gets an assignment created on the user's
first request of the day, contradicting the claim that inactive
definitions get no assignment. -/
theorem C7_inactive_objective_counterexample :
    (oInactivo.is_active = false) ∧
    ((objetivosActivosGet 0 dbInactivo).1.asignaciones = [asigNueva 0 oInactivo]) ∧
    ((objetivosActivosGet 0 dbInactivo).2 = [asigNueva 0 oInactivo]) ∧
    ¬ ((objetivosActivosGet 0 dbInactivo).1.asignaciones = []) := by
  refine ⟨rfl, ?_, ?_, ?_⟩ <;>
    simp [objetivosActivosGet, dbInactivo, oInactivo, asigNueva]

/-- C7 amended: on the first request of the day (no assignment rows for
the user and today), the engine bulk-creates exactly one assignment per
catalog definition — active or not — each with null `fecha_completado` and
`fecha_canjeado`, and returns exactly those rows. -/
theorem C7_lazy_creation_amended (today : Date) (db : Db)
    (h : db.asignaciones.filter (fun a => a.fecha_creacion = today) = []) :
    ((objetivosActivosGet today db).1.asignaciones
      = db.asignaciones ++ db.catalogo.map (asigNueva today)) ∧
    ((objetivosActivosGet today db).2 = db.catalogo.map (asigNueva today)) ∧
    (∀ r ∈ (objetivosActivosGet today db).2,
      r.fecha_completado = none ∧ r.fecha_canjeado = none) := by
  have hE : (db.asignaciones.filter (fun a => a.fecha_creacion = today)).isEmpty := by
    simp [h]
  refine ⟨?_, ?_, ?_⟩
  · simp [objetivosActivosGet, hE]
  · simp [objetivosActivosGet, hE, List.filter_append, h, filter_asigNueva]
  · intro r hr
    have : (objetivosActivosGet today db).2 = db.catalogo.map (asigNueva today) := by
      simp [objetivosActivosGet, hE, List.filter_append, h, filter_asigNueva]
    rw [this] at hr
    rcases List.mem_map.mp hr with ⟨o, _, rfl⟩
    simp [asigNueva]

/-- Witness for the amended C7 theorem at the inactive-only catalog. -/
theorem C7_lazy_creation_amended_witness :
    (dbInactivo.asignaciones.filter (fun a => a.fecha_creacion = 0) = []) ∧
    ((objetivosActivosGet 0 dbInactivo).2 = dbInactivo.catalogo.map (asigNueva 0)) :=
  ⟨by simp [dbInactivo],
    (C7_lazy_creation_amended 0 dbInactivo (by simp [dbInactivo])).2.1⟩

/-- C8: listing the active objectives is idempotent within a day — a
second call from the state produced by the first changes nothing and
returns the same set, so rows are created at most once per
(user, objective, day). Holds with no precondition on the state. -/
theorem C8_objetivos_idempotente (today : Date) (db : Db) :
    ((objetivosActivosGet today (objetivosActivosGet today db).1).1
      = (objetivosActivosGet today db).1) ∧
    ((objetivosActivosGet today (objetivosActivosGet today db).1).2
      = (objetivosActivosGet today db).2) := by
  obtain ⟨p, u, c, l⟩ := db
  cases hF : (l.filter (fun a => a.fecha_creacion = today)).isEmpty with
  | false =>
      constructor <;> simp [objetivosActivosGet, hF]
  | true =>
      have hnil : l.filter (fun a => a.fecha_creacion = today) = [] := by
        simpa using hF
      cases hcat : c with
      | nil =>
          constructor <;>
            simp [objetivosActivosGet, hF, hnil]
      | cons o os =>
          have hfilter :
              ((l ++ (o :: os).map (asigNueva today)).filter
                (fun a => a.fecha_creacion = today))
              = (o :: os).map (asigNueva today) := by
            rw [List.filter_append, hnil, filter_asigNueva]
            simp
          constructor <;>
            simp [objetivosActivosGet, hF, hfilter, hnil, asigNueva_fecha]

/-- The step-update endpoint never touches assignment rows. -/
theorem stepUpdatePatch_asignaciones (now : Time) (today : Date) (db : Db)
    (rd : ReqData) :
    (stepUpdatePatch now today db rd).1.asignaciones = db.asignaciones := by
  cases rd with
  | lista entries => rfl
  | cuerpo v =>
      rcases v with _ | (⟨n⟩ | _)
      · rfl
      · simp only [stepUpdatePatch]
        split <;> rfl
      · rfl

/-- A freshly bulk-created row satisfies the redeem invariant. -/
theorem canje_asigNueva (today : Date) (o : ObjetivoDiario) :
    canjeImplicaCompletado (asigNueva today o) := by
  simp [canjeImplicaCompletado, asigNueva]

/-- Stamping a completion date preserves the redeem invariant. -/
theorem canje_completa (a : Asignacion) (t : Time) :
    canjeImplicaCompletado { a with fecha_completado := some t } := by
  simp [canjeImplicaCompletado]

/-- The serializer's `get_or_create` preserves the redeem invariant. -/
theorem canje_asigGetOrCreate (l : List Asignacion) (oid : Int) (today : Date)
    (h : ∀ a ∈ l, canjeImplicaCompletado a) :
    ∀ a ∈ (asigGetOrCreate l oid today).2, canjeImplicaCompletado a := by
  intro a ha
  unfold asigGetOrCreate at ha
  cases hf : asigFind l oid today with
  | some b => rw [hf] at ha; exact h a ha
  | none =>
      rw [hf] at ha
      rcases List.mem_append.mp ha with h1 | h2
      · exact h a h1
      · have ha2 : a = ({ objetivoId := oid, fecha_completado := none, fecha_canjeado := none, fecha_creacion := today } : Asignacion) := by
          simpa using h2
        subst ha2
        simp [canjeImplicaCompletado]

/-- Marking an assignment completed preserves the redeem invariant. -/
theorem canje_asigUpd (l : List Asignacion) (oid : Int) (today : Date) (t : Time)
    (h : ∀ a ∈ l, canjeImplicaCompletado a) :
    ∀ a ∈ asigUpd l oid today (fun a => { a with fecha_completado := some t }),
      canjeImplicaCompletado a := by
  intro a ha
  rcases List.mem_map.mp ha with ⟨b, hb, rfl⟩
  by_cases hm : (b.objetivoId = oid ∧ b.fecha_creacion = today)
  · simpa [hm] using canje_completa b t
  · simpa [hm] using h b hb

/-- C9: the redeemed-implies-completed invariant is preserved by every
operation of the engine: step updates never touch assignments; listing
objectives only appends rows with both timestamps null; explicit and
implicit completion only set `fecha_completado`; and the redeem endpoint
crashes before writing anything, so no operation can produce a row with
`fecha_canjeado` set and `fecha_completado` null. -/
theorem C9_canje_requiere_completado (today : Date) (db : Db) (op : Op)
    (h : InvRC db) : InvRC (applyOp today db op) := by
  cases op with
  | patchOp now rd =>
      intro a ha
      rw [applyOp, stepUpdatePatch_asignaciones] at ha
      exact h a ha
  | exchangeOp tid => exact h
  | objetivosOp =>
      intro a ha
      simp only [applyOp, objetivosActivosGet] at ha
      by_cases hE : (db.asignaciones.filter fun x => x.fecha_creacion = today).isEmpty
      · rw [if_pos hE] at ha
        rcases List.mem_append.mp ha with h1 | h2
        · exact h a h1
        · rcases List.mem_map.mp h2 with ⟨o, _, rfl⟩
          exact canje_asigNueva today o
      · rw [if_neg hE] at ha
        exact h a ha
  | marcarOp codigo =>
      intro a ha
      simp only [marcar_objetivo_cualitativo_como_completado, applyOp] at ha
      rcases List.mem_map.mp ha with ⟨b, hb, rfl⟩
      by_cases hm : matchCualitativo db.catalogo today codigo b = true
      · simpa [hm] using canje_completa b (dateMidnight today)
      · simpa [hm] using h b hb
  | checkOp now tid =>
      simp only [applyOp, checkDailyTaskPost]
      cases hfind : db.catalogo.find? (fun o => o.id = tid ∧ o.is_active) with
      | none => simpa [hfind] using h
      | some obj =>
          dsimp only
          by_cases h1 : (asigGetOrCreate db.asignaciones obj.id today).1.fecha_completado.isSome
          · simp only [h1, if_true]
            exact canje_asigGetOrCreate db.asignaciones obj.id today h
          · simp only [h1, if_false, Bool.false_eq_true]
            by_cases h2 : puede_completar_objetivo db.pasos today obj
            · simp only [h2, not_true, if_false]
              split
              · exact canje_asigUpd _ obj.id today now
                  (canje_asigGetOrCreate db.asignaciones obj.id today h)
              · exact canje_asigUpd _ obj.id today now
                  (canje_asigGetOrCreate db.asignaciones obj.id today h)
            · simp only [h2, not_false_iff, if_true]
              exact canje_asigGetOrCreate db.asignaciones obj.id today h

/-- Witness for the C9 preservation theorem: the invariant holds after
lazily creating today's objectives in the empty database. -/
theorem C9_canje_requiere_completado_witness :
    InvRC (applyOp 0 dbEmpty Op.objetivosOp) :=
  C9_canje_requiere_completado 0 dbEmpty Op.objetivosOp
    (by intro a ha; simp [dbEmpty] at ha)

/-- C10: the completion-evaluation predicate holds exactly for a
quantitative definition with requirement string `"pasos"` whose user has a
`PASOS` row for today with at least `valor_requerido` steps; every
qualitative, unknown-kind or other-requirement definition evaluates to
false, and the explicit check endpoint then answers the
requirement-not-met client error. -/
theorem C10_requisito_no_cumplido :
    (∀ (pasos : PasosTable) (today : Date) (obj : ObjetivoDiario),
      puede_completar_objetivo pasos today obj = true ↔
        (obj.tipo = "cuantitativo" ∧ obj.requisito = "pasos" ∧
          ∃ p, pasos today = some p ∧ obj.valor_requerido ≤ p)) ∧
    (∀ (now : Time) (today : Date) (db : Db) (tid : Int) (obj : ObjetivoDiario),
      db.catalogo.find? (fun o => o.id = tid ∧ o.is_active) = some obj →
      (asigGetOrCreate db.asignaciones obj.id today).1.fecha_completado = none →
      puede_completar_objetivo db.pasos today obj = false →
      (checkDailyTaskPost now today db tid).2 = CheckResp.noAlcanzado) := by
  constructor
  · intro pasos today obj
    unfold puede_completar_objetivo evaluar_objetivo_cuantitativo
      evaluar_objetivo_cualitativo
    by_cases ht : obj.tipo = "cuantitativo"
    · by_cases hr : obj.requisito = "pasos"
      · cases hp : pasos today with
        | none => simp [ht, hr, hp]
        | some p => simp [ht, hr, hp]
      · simp [ht, hr]
    · simp [ht, ite_self]
  · intro now today db tid obj hfind hnc hpf
    have hfind2 : db.catalogo.find? (fun o => decide (o.id = tid) && o.is_active)
        = some obj := by simpa using hfind
    simp [checkDailyTaskPost, hfind2, hnc, hpf]

/-- Witness for the C10 theorem: the active quantitative definition with
the unsupported requirement `"km"` is rejected by the check endpoint. -/
theorem C10_requisito_no_cumplido_witness :
    (dbKm.catalogo.find? (fun o => o.id = 4 ∧ o.is_active) = some oKm) ∧
    ((asigGetOrCreate dbKm.asignaciones oKm.id 0).1.fecha_completado = none) ∧
    (puede_completar_objetivo dbKm.pasos 0 oKm = false) ∧
    ((checkDailyTaskPost 7 0 dbKm 4).2 = CheckResp.noAlcanzado) := by
  have h1 : dbKm.catalogo.find? (fun o => o.id = 4 ∧ o.is_active) = some oKm := by
    simp [dbKm, oKm]
  have h2 : (asigGetOrCreate dbKm.asignaciones oKm.id 0).1.fecha_completado = none := by
    simp [dbKm, oKm, asigGetOrCreate, asigFind]
  have h3 : puede_completar_objetivo dbKm.pasos 0 oKm = false := by
    simp [puede_completar_objetivo, evaluar_objetivo_cuantitativo, dbKm, oKm]
  exact ⟨h1, h2, h3, C10_requisito_no_cumplido.2 7 0 dbKm 4 oKm h1 h2 h3⟩

end ReFit
